import Mathlib

/-!
Shallow embedding of the Velodyne 32C offline raw-data decoder
(`src/velodyne_pointcloud/src/lib/rawdata.cc`).

Floating-point arithmetic of the source (`float`/`double`) is idealised as
exact rational arithmetic over `ℚ`; machine integers are `ℕ`/`ℤ` with the
source's integer divisions and conversions made explicit.  Constants and
one-line helpers that live in the header `rawdata.h` (which is not part of
the provided sources) are modelled from the spec and documented as such.
-/

namespace Velodyne

/-- Modelled from the spec: the constant `ROTATION_MAX_UNITS` is declared in
the header `rawdata.h`, which is not among the provided sources; the spec
describes 36000-entry sine/cosine tables indexed by rotation units
0..35999. -/
def ROTATION_MAX_UNITS : ℕ := 36000

/-- Modelled from the spec: the range quantum `DISTANCE_RESOLUTION` is
declared in the header `rawdata.h`, which is not among the provided sources;
the spec references it as the device's fixed resolution, 0.002 length units
per raw distance count. -/
def DISTANCE_RESOLUTION : ℚ := 1 / 500

/-- Modelled from the spec: `SCANS_PER_BLOCK` is declared in the header,
which is not among the provided sources; each block covers one
32-channel bank. -/
def SCANS_PER_BLOCK : ℕ := 32

/-- Modelled from the spec: `RAW_SCAN_SIZE` is declared in the header, which
is not among the provided sources; a record is a 2-byte little-endian
distance plus a 1-byte intensity, 3 bytes. -/
def RAW_SCAN_SIZE : ℕ := 3

/-- Modelled from the spec: the lower-bank block-header sentinel
`LOWER_BANK` is declared in the header, which is not among the provided
sources; the device tags lower-bank blocks with 0xDDFF. -/
def LOWER_BANK : ℕ := 0xDDFF

/-- Per-channel calibration record (`velodyne_pointcloud::LaserCorrection`),
restricted to the fields `RawData::unpack` reads.  The cached sine/cosine
fields stand for the source's precomputed `cos_rot_correction` etc. -/
structure LaserCorrection where
  cos_rot_correction : ℚ
  sin_rot_correction : ℚ
  cos_vert_correction : ℚ
  sin_vert_correction : ℚ
  dist_correction : ℚ
  two_pt_correction_available : Bool
  dist_correction_x : ℚ
  dist_correction_y : ℚ
  vert_offset_correction : ℚ
  horiz_offset_correction : ℚ
  min_intensity : ℚ
  max_intensity : ℚ
  focal_distance : ℚ
  focal_slope : ℚ
  laser_ring : ℕ
deriving DecidableEq

/-- The decoder configuration `RawData::config_`: range bounds (`double`,
idealised as `ℚ`) and the integer hardware-convention angle window. -/
structure Config where
  min_range : ℚ
  max_range : ℚ
  min_angle : ℤ
  max_angle : ℤ
deriving DecidableEq

/-- The calibration table `calibration_.laser_corrections`, indexed by
hardware laser number (0..63 in the source). -/
structure Calibration where
  laser_corrections : ℕ → LaserCorrection

/-- The rotation trig caches `cos_rot_table_` / `sin_rot_table_` built by
`RawData::setup`.  The source arrays have `ROTATION_MAX_UNITS` entries; here
they are total functions so that the index actually used by `unpack` can be
reasoned about separately (see `rotTableIndex`). -/
structure TrigTables where
  cos_rot_table : ℕ → ℚ
  sin_rot_table : ℕ → ℚ

/-- One raw block of a packet (`raw_block_t`): 2-byte header tag, 2-byte
rotation reading, and the byte array `data` holding the 3-byte scan
records. -/
structure RawBlock where
  header : ℕ
  rotation : ℕ
  data : ℕ → ℕ

/-- An output point (`VPoint`): ring index, Cartesian coordinates, and the
stored 8-bit intensity. -/
structure VPoint where
  ring : ℕ
  x : ℚ
  y : ℚ
  z : ℚ
  intensity : ℕ
deriving DecidableEq

/-- The output sink (`VPointCloud`): its point sequence and width counter. -/
structure VPointCloud where
  points : List VPoint
  width : ℕ
deriving DecidableEq

/-- Bank-origin dispatch of `RawData::unpack` (rawdata.cc lines 141-147):
origin 32 exactly for the lower-bank sentinel, otherwise 0. -/
def bankOrigin (header : ℕ) : ℕ :=
  if header = LOWER_BANK then 32 else 0

/-- The little-endian 16-bit raw distance of record `j` of a block
(`tmp.bytes[0] = data[k]; tmp.bytes[1] = data[k+1]`, rawdata.cc 161-163). -/
def tmpUint (b : RawBlock) (j : ℕ) : ℕ :=
  b.data (j * RAW_SCAN_SIZE) + 256 * b.data (j * RAW_SCAN_SIZE + 1)

/-- The raw intensity byte of record `j` (`raw->blocks[i].data[k+2]`,
rawdata.cc line 238). -/
def rawIntensityByte (b : RawBlock) (j : ℕ) : ℕ :=
  b.data (j * RAW_SCAN_SIZE + 2)

/-- The angular-window test of `RawData::unpack` (rawdata.cc lines 166-171).
The `uint16_t` rotation and `int` angles are compared after the usual
arithmetic conversions, i.e. in `ℤ`.  Note the strict `min_angle < max_angle`
in the first disjunct. -/
def angularAccept (cfg : Config) (rotation : ℕ) : Bool :=
  (decide (cfg.min_angle ≤ (rotation : ℤ)) && decide ((rotation : ℤ) ≤ cfg.max_angle)
      && decide (cfg.min_angle < cfg.max_angle))
    || (decide (cfg.max_angle < cfg.min_angle)
      && (decide ((rotation : ℤ) ≤ cfg.max_angle) || decide (cfg.min_angle ≤ (rotation : ℤ))))

/-- The subscript `unpack` applies to `cos_rot_table_` / `sin_rot_table_`
(rawdata.cc lines 183-187): the raw rotation field itself; the source applies
no reduction modulo `ROTATION_MAX_UNITS`. -/
def rotTableIndex (rotation : ℕ) : ℕ := rotation

/-- Step-5 distance of record `j`: `tmp.uint * DISTANCE_RESOLUTION +
corrections.dist_correction` (rawdata.cc lines 172-173). -/
def recordDistance (cal : Calibration) (b : RawBlock) (bank_origin j : ℕ) : ℚ :=
  (tmpUint b j : ℚ) * DISTANCE_RESOLUTION
    + (cal.laser_corrections (j + bank_origin)).dist_correction

/-- `cos_rot_angle` of rawdata.cc lines 182-184: angle-subtraction identity
applied to the cached table values at the raw rotation index. -/
def cosRotAngle (tt : TrigTables) (c : LaserCorrection) (rotation : ℕ) : ℚ :=
  tt.cos_rot_table (rotTableIndex rotation) * c.cos_rot_correction
    + tt.sin_rot_table (rotTableIndex rotation) * c.sin_rot_correction

/-- `sin_rot_angle` of rawdata.cc lines 185-187. -/
def sinRotAngle (tt : TrigTables) (c : LaserCorrection) (rotation : ℕ) : ℚ :=
  tt.sin_rot_table (rotTableIndex rotation) * c.cos_rot_correction
    - tt.cos_rot_table (rotTableIndex rotation) * c.sin_rot_correction

/-- Two-point x-axis distance correction (rawdata.cc lines 205-211): zero
when unavailable, otherwise the linear interpolation between reference
distances 2.4 and 25.04 of the base correction toward `dist_correction_x`. -/
def distanceCorrX (c : LaserCorrection) (xx : ℚ) : ℚ :=
  if c.two_pt_correction_available then
    (c.dist_correction - c.dist_correction_x) * (xx - 2.4) / (25.04 - 2.4)
      + c.dist_correction_x
  else 0

/-- Two-point y-axis distance correction (rawdata.cc lines 205-206 and
212-216), with reference distances 1.93 and 25.04. -/
def distanceCorrY (c : LaserCorrection) (yy : ℚ) : ℚ :=
  if c.two_pt_correction_available then
    (c.dist_correction - c.dist_correction_y) * (yy - 1.93) / (25.04 - 1.93)
      + c.dist_correction_y
  else 0

/-- `focal_offset` of rawdata.cc lines 240-242:
`256 * (1 - focal_distance/13100)^2` with float (here exact) division. -/
def focalOffset (c : LaserCorrection) : ℚ :=
  256 * (1 - c.focal_distance / 13100) * (1 - c.focal_distance / 13100)

/-- The inner falloff term `256 * (1 - tmp.uint/65535)*(1 - tmp.uint/65535)`
of rawdata.cc line 244-245.  `tmp.uint` is an integer, `65535` an `int`
literal, so `tmp.uint/65535` is C integer division; the whole product is
computed in `int` before being subtracted from the float `focal_offset`. -/
def codeFalloffInner (rawDist : ℕ) : ℤ :=
  256 * (1 - ((rawDist / 65535 : ℕ) : ℤ)) * (1 - ((rawDist / 65535 : ℕ) : ℤ))

/-- The intensity correction term added to the raw intensity byte
(rawdata.cc lines 243-245): `focal_slope * abs(focal_offset - <falloff>)`.
The source's unqualified `abs` is modelled as the exact absolute value. -/
def codeIntensityCorrection (c : LaserCorrection) (rawDist : ℕ) : ℚ :=
  c.focal_slope * |focalOffset c - (codeFalloffInner rawDist : ℚ)|

/-- The clamped intensity value of rawdata.cc lines 238-247: raw byte plus
correction, clamped below to `min_intensity` then above to `max_intensity`. -/
def codeIntensity (c : LaserCorrection) (rawIntensity rawDist : ℕ) : ℚ :=
  let i1 : ℚ := (rawIntensity : ℚ) + codeIntensityCorrection c rawDist
  let i2 : ℚ := if i1 < c.min_intensity then c.min_intensity else i1
  if i2 > c.max_intensity then c.max_intensity else i2

/-- Truncation toward zero of a rational, the rounding C++ applies when
converting a floating value to an integer type. -/
def ratTrunc (q : ℚ) : ℤ :=
  if 0 ≤ q then ⌊q⌋ else -⌊-q⌋

/-- The `(uint8_t) intensity` conversion of rawdata.cc line 257: truncation
toward zero followed by reduction modulo 256 (the observable behaviour of the
narrowing conversion on the target). -/
def uint8OfRat (q : ℚ) : ℕ :=
  (ratTrunc q % 256).toNat

/-- Modelled from the spec: the body of `pointInRange`, called at rawdata.cc
line 249, lives in the header `rawdata.h`, which is not among the provided
sources; the spec's range test accepts exactly when
`min_range ≤ distance ≤ max_range`. -/
def pointInRange (cfg : Config) (distance : ℚ) : Bool :=
  decide (cfg.min_range ≤ distance) && decide (distance ≤ cfg.max_range)

/-- Processing of one scan record of one block by `RawData::unpack`
(rawdata.cc lines 149-263): the angular window test, the position and
intensity calculation, and the range-gated emission, returning the point
emitted for this record if any. -/
def processRecord (cfg : Config) (cal : Calibration) (tt : TrigTables)
    (b : RawBlock) (bank_origin j : ℕ) : Option VPoint :=
  let c := cal.laser_corrections (j + bank_origin)
  if angularAccept cfg b.rotation then
    let distance : ℚ := recordDistance cal b bank_origin j
    let cra : ℚ := cosRotAngle tt c b.rotation
    let sra : ℚ := sinRotAngle tt c b.rotation
    let xy_distance : ℚ := distance * c.cos_vert_correction
    let xx : ℚ := |xy_distance * sra - c.horiz_offset_correction * cra|
    let yy : ℚ := |xy_distance * cra + c.horiz_offset_correction * sra|
    let distance_x : ℚ := distance + distanceCorrX c xx
    let x : ℚ := distance_x * c.cos_vert_correction * sra + c.horiz_offset_correction * cra
    let distance_y : ℚ := distance + distanceCorrY c yy
    let y : ℚ := distance_y * c.cos_vert_correction * cra + c.horiz_offset_correction * sra
    let z : ℚ := distance * c.sin_vert_correction + c.vert_offset_correction
    if pointInRange cfg distance then
      some { ring := c.laser_ring, x := y, y := -x, z := z,
             intensity := uint8OfRat (codeIntensity c (rawIntensityByte b j) (tmpUint b j)) }
    else none
  else none

/-- Appending the outcome of one record to the sink: `pc.points.push_back`
plus `++pc.width` on emission (rawdata.cc lines 260-261), nothing
otherwise. -/
def emitStep (f : ℕ → Option VPoint) (pc : VPointCloud) (j : ℕ) : VPointCloud :=
  match f j with
  | some p => { points := pc.points ++ [p], width := pc.width + 1 }
  | none => pc

/-- The inner loop of `RawData::unpack` over the scan records of one block
(rawdata.cc line 149). -/
def unpackBlock (cfg : Config) (cal : Calibration) (tt : TrigTables)
    (b : RawBlock) (pc : VPointCloud) : VPointCloud :=
  (List.range SCANS_PER_BLOCK).foldl
    (emitStep (processRecord cfg cal tt b (bankOrigin b.header))) pc

/-- `RawData::unpack` (rawdata.cc lines 132-266): the outer loop over the
packet's blocks (the source iterates over the packet's fixed
`BLOCKS_PER_PACKET` blocks; the embedding folds over the block list). -/
def unpack (cfg : Config) (cal : Calibration) (tt : TrigTables)
    (pkt : List RawBlock) (pc : VPointCloud) : VPointCloud :=
  pkt.foldl (fun acc b => unpackBlock cfg cal tt b acc) pc

/-- Normalisation of the derived integer angle window by
`RawData::setParameters` (rawdata.cc lines 68-72): a degenerate window with
equal bounds is replaced by the full circle.  The preceding double-precision
angle derivation (lines 57-67) is taken as the opaque integer pair input. -/
def normalizeAngleWindow (mn mx : ℤ) : ℤ × ℤ :=
  if mn = mx then (0, 36000) else (mn, mx)

/-- The spec's wording of the angular window test, for comparison with the
source's `angularAccept`: first disjunct with `min_angle ≤ max_angle`. -/
def specAngularAccept (cfg : Config) (rotation : ℕ) : Bool :=
  (decide (cfg.min_angle ≤ cfg.max_angle) && decide (cfg.min_angle ≤ (rotation : ℤ))
      && decide ((rotation : ℤ) ≤ cfg.max_angle))
    || (decide (cfg.max_angle < cfg.min_angle)
      && (decide ((rotation : ℤ) ≤ cfg.max_angle) || decide (cfg.min_angle ≤ (rotation : ℤ))))

/-- The spec's quadratic falloff term `256 * (1 - raw_distance/65535)^2`
with exact (real) division, for comparison with `codeFalloffInner`. -/
def specFalloff (rawDist : ℕ) : ℚ :=
  256 * (1 - (rawDist : ℚ) / 65535) * (1 - (rawDist : ℚ) / 65535)

/-- A wraparound filter window: min_angle 35000, max_angle 1000. -/
def wrapCfg : Config :=
  { min_range := 0, max_range := 1000, min_angle := 35000, max_angle := 1000 }

/-- A degenerate filter window with equal bounds 500 (as it could be set
directly on the config, bypassing `normalizeAngleWindow`). -/
def degCfg : Config :=
  { min_range := 0, max_range := 1000, min_angle := 500, max_angle := 500 }

/-- The full-circle window produced by `normalizeAngleWindow`. -/
def fullCfg : Config :=
  { min_range := 0, max_range := 1000, min_angle := 0, max_angle := 36000 }

/-- A calibration record with all corrections zero, clamp bounds 0 and 255,
two-point correction unavailable. -/
def zeroCorrection : LaserCorrection :=
  { cos_rot_correction := 1, sin_rot_correction := 0,
    cos_vert_correction := 1, sin_vert_correction := 0,
    dist_correction := 0, two_pt_correction_available := false,
    dist_correction_x := 0, dist_correction_y := 0,
    vert_offset_correction := 0, horiz_offset_correction := 0,
    min_intensity := 0, max_intensity := 255,
    focal_distance := 0, focal_slope := 0, laser_ring := 0 }

/-- A calibration table assigning `zeroCorrection` to every channel. -/
def zeroCal : Calibration := ⟨fun _ => zeroCorrection⟩

/-- Trig tables that are identically zero (their values are irrelevant to
the claims that use them). -/
def zeroTT : TrigTables := ⟨fun _ => 0, fun _ => 0⟩

/-- An upper-bank block at rotation `r` whose data bytes are all zero. -/
def blockAt (r : ℕ) : RawBlock :=
  { header := 0xEEFF, rotation := r, data := fun _ => 0 }

/-- A calibration record whose intensity clamp interval [280, 300] lies
outside the `uint8_t` range. -/
def hiClampCorrection : LaserCorrection :=
  { zeroCorrection with min_intensity := 280, max_intensity := 300 }

/-- A calibration table assigning `hiClampCorrection` to every channel. -/
def hiClampCal : Calibration := ⟨fun _ => hiClampCorrection⟩

/-- An upper-bank block at rotation 0 whose raw distances are 0 and whose
raw intensity bytes are all 100. -/
def hiClampBlock : RawBlock :=
  { header := 0xEEFF, rotation := 0, data := fun n => if n % 3 = 2 then 100 else 0 }

/-- The empty output sink. -/
def emptyCloud : VPointCloud := { points := [], width := 0 }

/-! ## Helper lemmas -/

/-- Folding `emitStep` over any index list only appends to the sink and
advances the width by the number of appended points. -/
theorem foldl_emitStep_append (f : ℕ → Option VPoint) :
    ∀ (l : List ℕ) (pc : VPointCloud), ∃ s : List VPoint,
      l.foldl (emitStep f) pc = ⟨pc.points ++ s, pc.width + s.length⟩ := by
  intro l
  induction l with
  | nil => exact fun pc => ⟨[], by simp⟩
  | cons a t ih =>
    intro pc
    rw [List.foldl_cons]
    cases hfa : f a with
    | none =>
      obtain ⟨s, hs⟩ := ih pc
      exact ⟨s, by simpa [emitStep, hfa] using hs⟩
    | some p =>
      obtain ⟨s, hs⟩ := ih ⟨pc.points ++ [p], pc.width + 1⟩
      refine ⟨p :: s, ?_⟩
      simp only [emitStep, hfa]
      rw [hs]
      simp [List.append_assoc]
      omega

/-- Folding `emitStep` over an index list on which every record yields the
same point appends exactly one copy of that point per index. -/
theorem foldl_emitStep_const (f : ℕ → Option VPoint) (p : VPoint) (hf : ∀ j, f j = some p) :
    ∀ (l : List ℕ) (pc : VPointCloud),
      l.foldl (emitStep f) pc
        = ⟨pc.points ++ List.replicate l.length p, pc.width + l.length⟩ := by
  intro l
  induction l with
  | nil => intro pc; simp
  | cons a t ih =>
    intro pc
    rw [List.foldl_cons]
    simp only [emitStep, hf a]
    rw [ih ⟨pc.points ++ [p], pc.width + 1⟩]
    simp [List.append_assoc, List.replicate_succ]
    omega

/-- The source's angular test, characterised as a proposition: the first
disjunct carries the strict comparison `min_angle < max_angle`. -/
theorem angular_test_char :
    ∀ (cfg : Config) (r : ℕ), angularAccept cfg r = true ↔
      ((cfg.min_angle < cfg.max_angle ∧ cfg.min_angle ≤ (r : ℤ) ∧ (r : ℤ) ≤ cfg.max_angle) ∨
       (cfg.max_angle < cfg.min_angle ∧ ((r : ℤ) ≤ cfg.max_angle ∨ cfg.min_angle ≤ (r : ℤ)))) := by
  intro cfg r
  simp only [angularAccept, Bool.and_eq_true, Bool.or_eq_true, decide_eq_true_eq]
  tauto

/-- A record whose block fails the angular window test produces no point. -/
theorem reject_no_point : ∀ (cfg : Config) (cal : Calibration) (tt : TrigTables)
    (b : RawBlock) (o j : ℕ),
    angularAccept cfg b.rotation = false → processRecord cfg cal tt b o j = none := by
  intro cfg cal tt b o j h
  simp [processRecord, h]

/-- Among records whose block passes the angular window test, emission is
decided exactly by `pointInRange` applied to the step-5 distance. -/
theorem range_gate : ∀ (cfg : Config) (cal : Calibration) (tt : TrigTables)
    (b : RawBlock) (o j : ℕ), angularAccept cfg b.rotation = true →
    ((processRecord cfg cal tt b o j).isSome = true
      ↔ pointInRange cfg (recordDistance cal b o j) = true) := by
  intro cfg cal tt b o j h
  rw [processRecord]
  simp only [h, if_true]
  by_cases hp : pointInRange cfg (recordDistance cal b o j) = true <;> simp [hp]

/-- The clamped intensity lies within `[0, 255]` whenever both clamp bounds
do. -/
theorem clamp_range_mem : ∀ (c : LaserCorrection) (rawI rawD : ℕ),
    0 ≤ c.min_intensity → c.min_intensity ≤ 255 →
    0 ≤ c.max_intensity → c.max_intensity ≤ 255 →
    0 ≤ codeIntensity c rawI rawD ∧ codeIntensity c rawI rawD ≤ 255 := by
  intro c rawI rawD h1 h2 h3 h4
  rw [codeIntensity]
  split_ifs with ha hb hc <;> constructor <;> linarith

/-- Truncation toward zero keeps a rational of `[0, 255]` within
`[0, 256)`. -/
theorem ratTrunc_bounds : ∀ q : ℚ, 0 ≤ q → q ≤ 255 →
    0 ≤ ratTrunc q ∧ ratTrunc q < 256 := by
  intro q h0 h255
  rw [ratTrunc, if_pos h0]
  constructor
  · exact Int.le_floor.mpr (by exact_mod_cast h0)
  · have hq : (⌊q⌋ : ℚ) ≤ 255 := le_trans (Int.floor_le q) h255
    have h : ⌊q⌋ ≤ 255 := by exact_mod_cast hq
    omega

/-- The raw distance bytes of `hiClampBlock` are zero for every record. -/
theorem tmpUint_hiClamp (j : ℕ) : tmpUint hiClampBlock j = 0 := by
  have h1 : ¬(j * 3 % 3 = 2) := by omega
  have h2 : ¬((j * 3 + 1) % 3 = 2) := by omega
  simp [tmpUint, hiClampBlock, RAW_SCAN_SIZE, h1, h2]

/-- The raw intensity byte of `hiClampBlock` is 100 for every record. -/
theorem rawIntensityByte_hiClamp (j : ℕ) : rawIntensityByte hiClampBlock j = 100 := by
  have h : (j * 3 + 2) % 3 = 2 := by omega
  simp [rawIntensityByte, hiClampBlock, RAW_SCAN_SIZE, h]

/-- Every record of `hiClampBlock` under `hiClampCal` decodes to the origin
point with stored intensity byte 24 (the clamped value 280 wrapped). -/
theorem hiClamp_record_eval (j : ℕ) :
    processRecord fullCfg hiClampCal zeroTT hiClampBlock (bankOrigin hiClampBlock.header) j
      = some ⟨0, 0, 0, 0, 24⟩ := by
  have hb : bankOrigin hiClampBlock.header = 0 := by decide
  have hacc : angularAccept fullCfg hiClampBlock.rotation = true := by decide
  rw [hb, processRecord, hacc]
  simp only [if_true]
  norm_num [recordDistance, pointInRange, fullCfg, cosRotAngle, sinRotAngle, zeroTT,
    hiClampCal, hiClampCorrection, zeroCorrection, distanceCorrX, distanceCorrY,
    rawIntensityByte_hiClamp, tmpUint_hiClamp, codeIntensity, codeIntensityCorrection,
    codeFalloffInner, focalOffset, uint8OfRat, ratTrunc, DISTANCE_RESOLUTION]
  decide

/-! ## Claims -/

/-- Claim C1, counterexample: at the concrete configuration with
`min_angle = max_angle = 500` and a block at rotation 500 whose step-5
distance passes the range test, the claim's angular formula (first disjunct
with `min_angle ≤ max_angle`) accepts the rotation, yet the code's test
rejects it and `unpack` emits no point, so the claimed acceptance
equivalence is false at this input. -/
theorem angular_window_spec_gap :
    specAngularAccept degCfg 500 = true ∧
    pointInRange degCfg (recordDistance zeroCal (blockAt 500) 0 0) = true ∧
    angularAccept degCfg 500 = false ∧
    unpack degCfg zeroCal zeroTT [blockAt 500] emptyCloud = emptyCloud := by
  refine ⟨by decide, ?_, by decide, by decide⟩
  have h : recordDistance zeroCal (blockAt 500) 0 0 = 0 := by
    simp [recordDistance, tmpUint, blockAt, zeroCal, zeroCorrection]
  rw [h]
  simp [pointInRange, degCfg]

/-- Claim C1 (amended): a rotation r is accepted by the angular window test
of `unpack` iff `(min_angle < max_angle AND min_angle ≤ r ≤ max_angle)` OR
`(min_angle > max_angle AND (r ≤ max_angle OR r ≥ min_angle))` — the first
disjunct is strict, so a window with `min_angle = max_angle` accepts
nothing; a rejected record contributes no point; and with
`min_angle = 35000`, `max_angle = 1000`, rotations 35500 and 500 are
accepted while 20000 is rejected. -/
theorem angular_window_test :
    (∀ (cfg : Config) (r : ℕ), angularAccept cfg r = true ↔
      ((cfg.min_angle < cfg.max_angle ∧ cfg.min_angle ≤ (r : ℤ) ∧ (r : ℤ) ≤ cfg.max_angle) ∨
       (cfg.max_angle < cfg.min_angle ∧ ((r : ℤ) ≤ cfg.max_angle ∨ cfg.min_angle ≤ (r : ℤ))))) ∧
    (∀ (cfg : Config) (cal : Calibration) (tt : TrigTables) (b : RawBlock) (o j : ℕ),
      angularAccept cfg b.rotation = false → processRecord cfg cal tt b o j = none) ∧
    angularAccept wrapCfg 35500 = true ∧ angularAccept wrapCfg 500 = true ∧
    angularAccept wrapCfg 20000 = false :=
  ⟨angular_test_char, reject_no_point, by decide, by decide, by decide⟩

/-- Witness for `angular_window_test`: a block at the rejected rotation
20000 of the wraparound window produces no point. -/
theorem angular_window_test_witness :
    processRecord wrapCfg zeroCal zeroTT (blockAt 20000) 0 0 = none :=
  angular_window_test.2.1 wrapCfg zeroCal zeroTT (blockAt 20000) 0 0 (by decide)

/-- Claim C2: at the malformed 16-bit rotation value 60000 under the
wraparound window (min 35000, max 1000), the angular test accepts the block,
yet the trig-table subscript used by `unpack` is the raw value 60000 itself,
not reduced modulo 36000, and lies outside the `ROTATION_MAX_UNITS`-entry
tables; had the rotation been reduced modulo 36000 (to 24000), the window
would have rejected it. -/
theorem rotation_index_unreduced :
    angularAccept wrapCfg 60000 = true ∧
    rotTableIndex 60000 = 60000 ∧
    ¬ rotTableIndex 60000 < ROTATION_MAX_UNITS ∧
    angularAccept wrapCfg (60000 % 36000) = false := by
  decide

/-- Claim C3: the falloff term the code subtracts from the focal offset is
computed with C integer division `tmp.uint/65535`, so it equals 256 for
every raw distance below 65535 (and 0 at 65535) instead of the spec's
quadratic `256·(1 − raw/65535)²`; consequently the intensity correction is
constant in the raw distance over `[0, 65534]`, not quadratic. -/
theorem intensity_falloff_constant :
    codeFalloffInner 0 = 256 ∧ codeFalloffInner 32767 = 256 ∧
    codeFalloffInner 65534 = 256 ∧ codeFalloffInner 65535 = 0 ∧
    specFalloff 32767 ≠ 256 ∧
    (∀ raw : ℕ, raw < 65535 → codeFalloffInner raw = 256) ∧
    (∀ (c : LaserCorrection) (raw1 raw2 : ℕ), raw1 < 65535 → raw2 < 65535 →
      codeIntensityCorrection c raw1 = codeIntensityCorrection c raw2) := by
  refine ⟨by decide, by decide, by decide, by decide, ?_, ?_, ?_⟩
  · simp only [specFalloff]
    norm_num
  · intro raw h
    simp [codeFalloffInner, Nat.div_eq_of_lt h]
  · intro c raw1 raw2 h1 h2
    simp [codeIntensityCorrection, codeFalloffInner, Nat.div_eq_of_lt h1, Nat.div_eq_of_lt h2]

/-- Witness for `intensity_falloff_constant`: the falloff term at raw
distance 1000 is the constant 256. -/
theorem intensity_falloff_constant_witness : codeFalloffInner 1000 = 256 :=
  intensity_falloff_constant.2.2.2.2.2.1 1000 (by decide)

/-- Claim C4: a derived integer window with equal bounds is normalised to
`(0, 36000)` by `setParameters`, and under a configuration with
`min_angle = 0`, `max_angle = 36000` the angular test of `unpack` accepts
every rotation value in `[0, 36000)`. -/
theorem degenerate_window_full_circle :
    (∀ m : ℤ, normalizeAngleWindow m m = (0, 36000)) ∧
    (∀ (cfg : Config) (r : ℕ), cfg.min_angle = 0 → cfg.max_angle = 36000 →
      r < 36000 → angularAccept cfg r = true) := by
  refine ⟨fun m => by simp [normalizeAngleWindow], fun cfg r h1 h2 h3 => ?_⟩
  simp only [angularAccept, h1, h2, Bool.and_eq_true, Bool.or_eq_true, decide_eq_true_eq]
  omega

/-- Witness for `degenerate_window_full_circle`: the full-circle window
accepts rotation 12345. -/
theorem degenerate_window_full_circle_witness : angularAccept fullCfg 12345 = true :=
  degenerate_window_full_circle.2 fullCfg 12345 rfl rfl (by decide)

/-- Claim C5: for a record whose block passes the angular window test, a
point is emitted iff `pointInRange` holds of the step-5 distance
`raw_distance · DISTANCE_RESOLUTION + dist_correction`, i.e. iff
`min_range ≤ distance ≤ max_range`; a distance of exactly `min_range` is
accepted (for a non-empty range window), while `min_range − ε` and
`max_range + ε` are rejected for every positive ε. -/
theorem range_test_gates_emission :
    (∀ (cfg : Config) (cal : Calibration) (tt : TrigTables) (b : RawBlock) (o j : ℕ),
      angularAccept cfg b.rotation = true →
      ((processRecord cfg cal tt b o j).isSome = true
        ↔ pointInRange cfg (recordDistance cal b o j) = true)) ∧
    (∀ (cfg : Config) (d : ℚ), pointInRange cfg d = true ↔
      (cfg.min_range ≤ d ∧ d ≤ cfg.max_range)) ∧
    (∀ cfg : Config, cfg.min_range ≤ cfg.max_range →
      pointInRange cfg cfg.min_range = true) ∧
    (∀ (cfg : Config) (ε : ℚ), 0 < ε → pointInRange cfg (cfg.min_range - ε) = false) ∧
    (∀ (cfg : Config) (ε : ℚ), 0 < ε → pointInRange cfg (cfg.max_range + ε) = false) := by
  refine ⟨range_gate, fun cfg d => by simp [pointInRange],
    fun cfg h => by simp [pointInRange, h], fun cfg ε h => ?_, fun cfg ε h => ?_⟩
  · simp only [pointInRange, Bool.and_eq_false_iff, decide_eq_false_iff_not, not_le]
    left; linarith
  · simp only [pointInRange, Bool.and_eq_false_iff, decide_eq_false_iff_not, not_le]
    right; linarith

/-- Witness for `range_test_gates_emission`: a record at distance 0 inside
the window [0, 1000] is emitted, and a distance of exactly `min_range` is
accepted. -/
theorem range_test_gates_emission_witness :
    ((processRecord fullCfg zeroCal zeroTT (blockAt 100) 0 0).isSome = true
      ↔ pointInRange fullCfg (recordDistance zeroCal (blockAt 100) 0 0) = true) ∧
    pointInRange fullCfg fullCfg.min_range = true :=
  ⟨range_test_gates_emission.1 fullCfg zeroCal zeroTT (blockAt 100) 0 0 (by decide),
   range_test_gates_emission.2.2.1 fullCfg (by norm_num [fullCfg])⟩

/-- Claim C6: for every channel whose clamp interval is non-empty, the
clamped intensity value computed by `unpack` (raw byte plus focal
correction, clamped at lines 246-247) lies within
`[min_intensity, max_intensity]` for every raw intensity byte and every raw
distance value. -/
theorem intensity_within_clamp :
    ∀ (c : LaserCorrection) (rawI rawD : ℕ), c.min_intensity ≤ c.max_intensity →
      c.min_intensity ≤ codeIntensity c rawI rawD
        ∧ codeIntensity c rawI rawD ≤ c.max_intensity := by
  intro c rawI rawD h
  rw [codeIntensity]
  split_ifs with h1 h2 h3 <;> constructor <;> linarith

/-- Witness for `intensity_within_clamp`: raw byte 255 at raw distance 0 on
the zero calibration stays within [0, 255]. -/
theorem intensity_within_clamp_witness :
    zeroCorrection.min_intensity ≤ codeIntensity zeroCorrection 255 0
      ∧ codeIntensity zeroCorrection 255 0 ≤ zeroCorrection.max_intensity :=
  intensity_within_clamp zeroCorrection 255 0 (by norm_num [zeroCorrection])

/-- Claim C7: when a channel has `two_pt_correction_available` false, both
axis corrections are zero and the corrected distances equal the step-5
distance; when true, the x correction is the interpolation
`(dist_correction − dist_correction_x)·(xx − 2.4)/(25.04 − 2.4) +
dist_correction_x` and the y correction is
`(dist_correction − dist_correction_y)·(yy − 1.93)/(25.04 − 1.93) +
dist_correction_y`. -/
theorem two_point_distance_correction :
    (∀ (c : LaserCorrection) (xx yy : ℚ), c.two_pt_correction_available = false →
      distanceCorrX c xx = 0 ∧ distanceCorrY c yy = 0) ∧
    (∀ (c : LaserCorrection) (xx : ℚ), c.two_pt_correction_available = true →
      distanceCorrX c xx =
        (c.dist_correction - c.dist_correction_x) * (xx - 2.4) / (25.04 - 2.4)
          + c.dist_correction_x) ∧
    (∀ (c : LaserCorrection) (yy : ℚ), c.two_pt_correction_available = true →
      distanceCorrY c yy =
        (c.dist_correction - c.dist_correction_y) * (yy - 1.93) / (25.04 - 1.93)
          + c.dist_correction_y) ∧
    (∀ (c : LaserCorrection) (d xx yy : ℚ), c.two_pt_correction_available = false →
      d + distanceCorrX c xx = d ∧ d + distanceCorrY c yy = d) := by
  refine ⟨fun c xx yy h => ?_, fun c xx h => by simp [distanceCorrX, h],
    fun c yy h => by simp [distanceCorrY, h], fun c d xx yy h => ?_⟩
  · exact ⟨by simp [distanceCorrX, h], by simp [distanceCorrY, h]⟩
  · exact ⟨by simp [distanceCorrX, h], by simp [distanceCorrY, h]⟩

/-- Witness for `two_point_distance_correction`: the zero calibration has no
two-point correction, so both terms vanish. -/
theorem two_point_distance_correction_witness :
    distanceCorrX zeroCorrection 5 = 0 ∧ distanceCorrY zeroCorrection 7 = 0 :=
  two_point_distance_correction.1 zeroCorrection 5 7 rfl

/-- Claim C8: every header tag other than the lower-bank sentinel yields
bank origin 0 (upper-bank channel numbering), and the sentinel alone yields
origin 32. -/
theorem bank_origin_default_upper :
    (∀ h : ℕ, h ≠ LOWER_BANK → bankOrigin h = 0) ∧ bankOrigin LOWER_BANK = 32 :=
  ⟨fun h hne => by simp [bankOrigin, hne], by simp [bankOrigin]⟩

/-- Witness for `bank_origin_default_upper`: the arbitrary unrecognized tag
0x1234 resolves to the upper bank. -/
theorem bank_origin_default_upper_witness : bankOrigin 0x1234 = 0 :=
  bank_origin_default_upper.1 0x1234 (by decide)

/-- Claim C9: `unpack` only appends: for every packet and initial sink, the
resulting sink is the old point sequence followed by some suffix, and the
width counter grows by exactly the length of that suffix; the embedding is a
total function, so no error is raised and rejected records are silently
skipped. -/
theorem unpack_append_only : ∀ (cfg : Config) (cal : Calibration) (tt : TrigTables)
    (pkt : List RawBlock) (pc : VPointCloud), ∃ s : List VPoint,
      unpack cfg cal tt pkt pc = ⟨pc.points ++ s, pc.width + s.length⟩ := by
  intro cfg cal tt pkt
  induction pkt with
  | nil => exact fun pc => ⟨[], by simp [unpack]⟩
  | cons b t ih =>
    intro pc
    obtain ⟨s1, hs1⟩ := foldl_emitStep_append
      (processRecord cfg cal tt b (bankOrigin b.header)) (List.range SCANS_PER_BLOCK) pc
    obtain ⟨s2, hs2⟩ := ih ⟨pc.points ++ s1, pc.width + s1.length⟩
    refine ⟨s1 ++ s2, ?_⟩
    rw [unpack, List.foldl_cons]
    show List.foldl _ (unpackBlock cfg cal tt b pc) t = _
    rw [unpackBlock, hs1]
    show unpack cfg cal tt t _ = _
    rw [hs2]
    simp [List.append_assoc]
    omega

/-- Claim C10: the stored intensity byte is the clamped value truncated
toward zero and reduced modulo 256; when both clamp bounds lie in
`[0, 255]` no wrap occurs and the byte equals the truncated clamped value;
and the concrete calibration with clamp interval [280, 300] makes `unpack`
emit points whose stored byte 24 (= 280 mod 256) falls outside that
interval. -/
theorem intensity_byte_wraparound :
    (∀ (c : LaserCorrection) (rawI rawD : ℕ),
      0 ≤ c.min_intensity → c.min_intensity ≤ 255 →
      0 ≤ c.max_intensity → c.max_intensity ≤ 255 →
      (uint8OfRat (codeIntensity c rawI rawD) : ℤ) = ratTrunc (codeIntensity c rawI rawD)) ∧
    (unpack fullCfg hiClampCal zeroTT [hiClampBlock] emptyCloud).points.map VPoint.intensity
      = List.replicate 32 24 ∧
    hiClampCorrection.min_intensity = 280 ∧ hiClampCorrection.max_intensity = 300 ∧
    ¬ ((280 : ℚ) ≤ 24 ∧ (24 : ℚ) ≤ 300) := by
  refine ⟨fun c rawI rawD h1 h2 h3 h4 => ?_, ?_, rfl, rfl, by norm_num⟩
  · obtain ⟨hl, hr⟩ := clamp_range_mem c rawI rawD h1 h2 h3 h4
    obtain ⟨tl, tr⟩ := ratTrunc_bounds _ hl hr
    rw [uint8OfRat, Int.emod_eq_of_lt tl (by omega)]
    exact Int.toNat_of_nonneg tl
  · have h := foldl_emitStep_const
      (processRecord fullCfg hiClampCal zeroTT hiClampBlock (bankOrigin hiClampBlock.header))
      ⟨0, 0, 0, 0, 24⟩ hiClamp_record_eval (List.range SCANS_PER_BLOCK) emptyCloud
    rw [unpack, List.foldl_cons, List.foldl_nil, unpackBlock, h]
    simp [emptyCloud, SCANS_PER_BLOCK, List.map_replicate]

/-- Witness for `intensity_byte_wraparound`: on the zero calibration (clamp
bounds 0 and 255) the stored byte equals the truncated clamped value. -/
theorem intensity_byte_wraparound_witness :
    (uint8OfRat (codeIntensity zeroCorrection 100 0) : ℤ)
      = ratTrunc (codeIntensity zeroCorrection 100 0) :=
  intensity_byte_wraparound.1 zeroCorrection 100 0 (by norm_num [zeroCorrection])
    (by norm_num [zeroCorrection]) (by norm_num [zeroCorrection]) (by norm_num [zeroCorrection])

end Velodyne
